import Mathlib

/-!
Verification development for the `stat-telegram-account` fetcher.

The Python source under
`src/source/statistics/telegram/telegram-account/stat-telegram-account.py`
is shallowly embedded below.  Python attribute access on external records is
modelled by `Attr`: an attribute can be missing from the object, present with
the value `None`, or present with a real value.  The external directory
service (the Telethon client) is modelled as a record of response functions,
and `_resolve_entity` is embedded together with the list of directory calls it
makes and the list of failure messages it records, so that call order and
error aggregation are observable.
-/

namespace StatIt

/-- Python-style values appearing in the result dictionaries. -/
inductive JVal where
| jnull
| jbool (b : Bool)
| jint (n : Int)
| jstr (s : String)
| jlist (xs : List JVal)
| jobj (fields : List (String × JVal))

/-- One attribute of an external (Python) object: missing from the object,
present with value `None`, or present with a real value of type `a`. -/
inductive Attr (a : Type) where
| missing
| pynone
| val (x : a)
deriving DecidableEq

/-- Python plain attribute access `obj.name`: raises `AttributeError` when the
attribute is missing; `None` becomes `none`. -/
def Attr.pyGet (x : Attr a) (nm : String) : Except String (Option a) :=
  match x with
  | .missing => .error (("AttributeError: ") ++ nm)
  | .pynone => .ok none
  | .val v => .ok (some v)

/-- Python `getattr(obj, name, dflt)`: the default is used only when the
attribute is missing; a present `None` value is returned as `none`. -/
def Attr.pyGetattr (x : Attr a) (dflt : Option a) : Option a :=
  match x with
  | .missing => dflt
  | .pynone => none
  | .val v => some v

/-- One photo size variant, as read by the formatter (`s.w`, `s.h`, `s.type`). -/
structure SizeRec where
  w : Int
  h : Int
  type : String

/-- One profile photo record, as read by the formatter. -/
structure PhotoRec where
  id : Int
  dc_id : Int
  has_stickers : Bool
  sizes : List SizeRec

/-- The resolved Telegram `User` entity, with the attributes the code reads.
`id` is always present; the remaining attributes follow Python attribute
semantics via `Attr`.  `status` carries the `str` rendering of the status
object when one is present. -/
structure TLUser where
  id : Int
  access_hash : Attr Int
  first_name : Attr String
  last_name : Attr String
  username : Attr String
  phone : Attr String
  bot : Attr Bool
  premium : Attr Bool
  verified : Attr Bool
  scam : Attr Bool
  status : Attr String

/-- The `full_user` record returned by `GetFullUserRequest`, with the
attributes the formatter reads. -/
structure FullUserRec where
  about : Attr String
  profile_photos : Attr (List PhotoRec)
  has_presentation : Attr Bool

/-- The Telethon exceptions distinguished by `_resolve_entity`, each carrying
its `str(e)` message.  `other` stands for any further exception. -/
inductive TgErr where
| usernameNotOccupied (msg : String)
| usernameNotModified (msg : String)
| phoneNumberInvalid (msg : String)
| peerIdInvalid (msg : String)
| userIdInvalid (msg : String)
| valueErr (msg : String)
| other (msg : String)
deriving DecidableEq

/-- Python `str(e)` for a caught exception. -/
def errStr : TgErr → String
| .usernameNotOccupied m => m
| .usernameNotModified m => m
| .phoneNumberInvalid m => m
| .peerIdInvalid m => m
| .userIdInvalid m => m
| .valueErr m => m
| .other m => m

/-- One call to `client.get_entity`, with the argument it was given: a string
(username or phone form) or an integer user id. -/
inductive Call where
| byStr (s : String)
| byInt (n : Int)
deriving DecidableEq

/-- The external directory service (the Telethon client): responses for
`get_entity` and for `GetFullUserRequest`. -/
structure Directory where
  getEntity : Call → Except TgErr TLUser
  getFullUser : TLUser → Except TgErr FullUserRec

/-- Boolean substring test, Python `needle in hay`. -/
def strContains (hay needle : String) : Bool :=
  decide (needle.data <:+: hay.data)

/-- The normalization applied on non-empty input: `re.sub` of all whitespace
with the empty string after `identifier.lower()`. -/
def pyNormalize (s : String) : String :=
  String.mk ((s.data.map Char.toLower).filter (fun c => !c.isWhitespace))

/-- Embedding of `_normalize_identifier`: rejects only the empty string, then
lowercases and strips all whitespace. -/
def normalizeIdentifier (identifier : String) : Except String String :=
  if identifier = ("") then .error ("Identifier cannot be empty")
  else .ok (pyNormalize identifier)

/-- The digit extraction of the phone attempt: `re.sub` removing every
non-digit character. -/
def digitsOf (s : String) : String :=
  String.mk (s.data.filter Char.isDigit)

/-- The guard of the id attempt: `re.match` against one or more digits
spanning the whole string. -/
def isAllDigitsStr (s : String) : Bool :=
  !s.data.isEmpty && s.data.all Char.isDigit

/-- Python `int(s)` on an all-digit string. -/
def pyInt (s : String) : Int :=
  Int.ofNat (s.data.foldl (fun n c => 10 * n + (c.toNat - 48)) 0)

/-- The messages recorded by the username attempt: typed not-occupied and
not-modified errors are recorded; any other exception is dropped when its
text contains `USERNAME_NOT_OCCUPIED` and recorded otherwise. -/
def usernameErrs (e : TgErr) : List String :=
  match e with
  | .usernameNotOccupied m => [("Username failed: ") ++ m]
  | .usernameNotModified m => [("Username failed: ") ++ m]
  | e2 =>
    if strContains (errStr e2) ("USERNAME_NOT_OCCUPIED") then []
    else [("Username error: ") ++ errStr e2]

/-- The message recorded by the phone attempt on failure. -/
def phoneErrMsg (e : TgErr) : String :=
  match e with
  | .phoneNumberInvalid m => ("Phone failed: ") ++ m
  | .peerIdInvalid m => ("Phone failed: ") ++ m
  | e2 => ("Phone error: ") ++ errStr e2

/-- The message recorded by the id attempt on failure. -/
def idErrMsg (e : TgErr) : String :=
  match e with
  | .userIdInvalid m => ("ID failed: ") ++ m
  | .valueErr m => ("ID failed: ") ++ m
  | e2 => ("ID error: ") ++ errStr e2

/-- The final aggregated message of `_resolve_entity`. -/
def cannotResolveMsg (identifier : String) (errs : List String) : String :=
  ("Cannot resolve \"") ++ identifier ++ ("\". Tried: ") ++
    String.intercalate ("; ") errs

/-- Observable outcome of `_resolve_entity`: the returned entity or the raised
message, the `get_entity` calls made in order, and the recorded failure
messages in order. -/
structure ResolveOut where
  result : Except String TLUser
  calls : List Call
  errors : List String

/-- The id attempt (step 3 of `_resolve_entity`) followed by the final raise,
given the errors recorded and the calls made so far. -/
def idAttempt (d : Directory) (identifier : String) (errs : List String)
    (calls : List Call) : ResolveOut :=
  if isAllDigitsStr identifier then
    match d.getEntity (Call.byInt (pyInt identifier)) with
    | .ok u => ⟨.ok u, calls ++ [Call.byInt (pyInt identifier)], errs⟩
    | .error e =>
      ⟨.error (cannotResolveMsg identifier (errs ++ [idErrMsg e])),
        calls ++ [Call.byInt (pyInt identifier)], errs ++ [idErrMsg e]⟩
  else ⟨.error (cannotResolveMsg identifier errs), calls, errs⟩

/-- Embedding of `_resolve_entity`: username attempt, then phone attempt when
at least ten digits were extracted, then id attempt when the whole string is
digits, short-circuiting on the first `get_entity` success. -/
def resolveEntity (d : Directory) (identifier : String) : ResolveOut :=
  match d.getEntity (Call.byStr identifier) with
  | .ok u => ⟨.ok u, [Call.byStr identifier], []⟩
  | .error e1 =>
    let errs1 := usernameErrs e1
    if (digitsOf identifier).length ≥ 10 then
      match d.getEntity (Call.byStr (("+") ++ digitsOf identifier)) with
      | .ok u =>
        ⟨.ok u, [Call.byStr identifier,
          Call.byStr (("+") ++ digitsOf identifier)], errs1⟩
      | .error e2 =>
        idAttempt d identifier (errs1 ++ [phoneErrMsg e2])
          [Call.byStr identifier, Call.byStr (("+") ++ digitsOf identifier)]
    else idAttempt d identifier errs1 [Call.byStr identifier]

/-- Lift an `Option String` to a value: `None` becomes null. -/
def jOfStr : Option String → JVal
| none => JVal.jnull
| some s => JVal.jstr s

/-- Lift an `Option Bool` to a value: `None` becomes null. -/
def jOfBool : Option Bool → JVal
| none => JVal.jnull
| some b => JVal.jbool b

/-- Lift an `Option Int` to a value: `None` becomes null. -/
def jOfInt : Option Int → JVal
| none => JVal.jnull
| some n => JVal.jint n

/-- Python `x or None` on an optional string: the empty string is falsy. -/
def pyOrNone : Option String → Option String
| none => none
| some s => if s = ("") then none else some s

/-- Python `hasattr(v, <dunder str>)`: every value, `None` included, has a
string form, so this is constantly true. -/
def pyHasAttrStr (_v : Option String) : Bool := true

/-- Python `str(v)` on an optional string value: `str(None)` is the literal
string `None`. -/
def pyStr : Option String → String
| none => ("None")
| some s => s

/-- Python `len(x) if x else 0` on the optional photo list. -/
def pyLenIfTruthy : Option (List PhotoRec) → Int
| none => 0
| some l => if l.isEmpty then 0 else (l.length : Int)

/-- The conditional trailing entry of the info dict: the first photo is
expanded only when the photo list is present and non-empty. -/
def photoPart : Option (List PhotoRec) → List (String × JVal)
| some (p :: _) =>
  [(("profile_photo"), JVal.jobj
    [ (("id"), JVal.jint p.id),
      (("dc_id"), JVal.jint p.dc_id),
      (("has_stickers"), JVal.jbool p.has_stickers),
      (("sizes"), JVal.jlist (p.sizes.map (fun s => JVal.jobj
        [ (("w"), JVal.jint s.w),
          (("h"), JVal.jint s.h),
          (("type"), JVal.jstr s.type) ])))])]
| _ => []

/-- The info dictionary built by `_format_user_info`, given the values of the
plainly accessed attributes. -/
def infoList (user : TLUser) (full_user : FullUserRec) (ah : Option Int)
    (fn ln un : Option String) (bt vf : Option Bool) (st : Option String)
    (pp : Option (List PhotoRec)) : List (String × JVal) :=
  [ (("id"), JVal.jint user.id),
    (("access_hash"), jOfInt ah),
    (("first_name"), jOfStr (pyOrNone fn)),
    (("last_name"), jOfStr (pyOrNone ln)),
    (("username"), jOfStr un),
    (("phone"), jOfStr (user.phone.pyGetattr none)),
    (("is_bot"), jOfBool bt),
    (("is_premium"), jOfBool (user.premium.pyGetattr (some false))),
    (("is_verified"), jOfBool vf),
    (("is_scam"), jOfBool (user.scam.pyGetattr (some false))),
    (("status"), if pyHasAttrStr st then JVal.jstr (pyStr st) else JVal.jnull),
    (("about"), jOfStr (full_user.about.pyGetattr none)),
    (("profile_photos_count"), JVal.jint (pyLenIfTruthy pp)),
    (("has_video_profile_photo"),
      jOfBool (full_user.has_presentation.pyGetattr (some false))) ]
  ++ photoPart pp

/-- Embedding of `_format_user_info`: the plainly accessed attributes may
raise `AttributeError`; the `getattr` accesses never do. -/
def formatUserInfo (user : TLUser) (full_user : FullUserRec) :
    Except String (List (String × JVal)) := do
  let ah ← user.access_hash.pyGet ("access_hash")
  let fn ← user.first_name.pyGet ("first_name")
  let ln ← user.last_name.pyGet ("last_name")
  let un ← user.username.pyGet ("username")
  let bt ← user.bot.pyGet ("bot")
  let vf ← user.verified.pyGet ("verified")
  let st ← user.status.pyGet ("status")
  let pp ← full_user.profile_photos.pyGet ("profile_photos")
  pure (infoList user full_user ah fn ln un bt vf st pp)

/-- Python dict lookup on the assoc-list representation of the result. -/
def dictFind (k : String) : List (String × JVal) → Option JVal
| [] => none
| (k2, v) :: rest => if k2 = k then some v else dictFind k rest

/-- Session state of the fetcher: whether `self.client` exists, whether it is
connected and authorized, and how many underlying connect operations have
been performed so far. -/
structure Session where
  clientExists : Bool
  connected : Bool
  authorized : Bool
  connectCalls : Nat
deriving DecidableEq

/-- Underlying `client.connect()`: connects and counts one connect call. -/
def clientConnect (s : Session) : Session :=
  { s with connected := true, connectCalls := s.connectCalls + 1 }

/-- Underlying `client.start()`: connects when not yet connected, then
authorizes. -/
def clientStart (s : Session) : Session :=
  let s1 := if s.connected then s else clientConnect s
  { s1 with authorized := true }

/-- Constructing a fresh `TelegramClient`: it exists but is neither connected
nor authorized yet. -/
def newClient (s : Session) : Session :=
  { s with clientExists := true, connected := false, authorized := false }

/-- Embedding of `_ensure_started`: create and start the client when there is
none; reconnect (and re-start when unauthorized) when disconnected; do
nothing when the client is connected. -/
def ensureStarted (s : Session) : Session :=
  if !s.clientExists then clientStart (newClient s)
  else if !s.connected then
    let s1 := clientConnect s
    if !s1.authorized then clientStart s1 else s1
  else s

/-- Environment of one `get_user_info` run: the outcome of `_ensure_started`
(which may fail with a transport error) and the directory service. -/
structure Env where
  start : Except String Unit
  dir : Directory

/-- Map a directory failure to its `str(e)` message. -/
def exceptStr : Except TgErr a → Except String a
| .ok x => .ok x
| .error e => .error (errStr e)

/-- The body of the `try` block of `get_user_info`: ensure started, normalize,
resolve, fetch the full profile, format. -/
def getUserInfoTry (env : Env) (identifier : String) :
    Except String (List (String × JVal)) := do
  let _ ← env.start
  let norm ← normalizeIdentifier identifier
  let entity ← (resolveEntity env.dir norm).result
  let full_user ← exceptStr (env.dir.getFullUser entity)
  formatUserInfo entity full_user

/-- Embedding of `get_user_info`: any failure of the pipeline is converted to
the error dictionary carrying the original identifier. -/
def get_user_info (env : Env) (identifier : String) : List (String × JVal) :=
  match getUserInfoTry env identifier with
  | .ok info => info
  | .error e =>
    [ (("error"), JVal.jbool true),
      (("message"), JVal.jstr (("Failed to fetch user info for \"") ++
        identifier ++ ("\": ") ++ e)),
      (("identifier"), JVal.jstr identifier) ]

/-- A concrete resolved user entity used by the concrete scenarios below. -/
def sampleUser : TLUser :=
  ⟨7, .val 99, .val ("Pavel"), .pynone, .val ("durov"), .missing,
    .val false, .missing, .val true, .missing, .pynone⟩

/-- A directory that resolves the username `durov` directly and fails on
everything else. -/
def usernameOkDir : Directory where
  getEntity c :=
    match c with
    | Call.byStr t =>
      if t = ("durov") then Except.ok sampleUser
      else Except.error (TgErr.usernameNotOccupied ("nope"))
    | Call.byInt _ => Except.error (TgErr.userIdInvalid ("nope"))
  getFullUser _ := Except.error (TgErr.other ("unused"))

/-- A directory where the username attempt fails and the phone form of the
ten-digit identifier resolves. -/
def phoneOkDir : Directory where
  getEntity c :=
    match c with
    | Call.byStr t =>
      if t = ("+1234567890") then Except.ok sampleUser
      else Except.error (TgErr.usernameNotOccupied ("u1"))
    | Call.byInt _ => Except.error (TgErr.userIdInvalid ("never"))
  getFullUser _ := Except.error (TgErr.other ("unused"))

/-- A directory where every attempt fails with a typed error. -/
def allFailDir : Directory where
  getEntity c :=
    match c with
    | Call.byStr t =>
      if strContains t ("+") then Except.error (TgErr.phoneNumberInvalid ("bad phone"))
      else Except.error (TgErr.usernameNotOccupied ("no such name"))
    | Call.byInt _ => Except.error (TgErr.userIdInvalid ("bad id"))
  getFullUser _ := Except.error (TgErr.other ("unused"))

/-- A directory whose `get_entity` always raises a generic exception whose
text contains `USERNAME_NOT_OCCUPIED`. -/
def ghostDir : Directory where
  getEntity _ :=
    Except.error (TgErr.other ("USERNAME_NOT_OCCUPIED raw RPC failure"))
  getFullUser _ := Except.error (TgErr.other ("unused"))

/-- A concrete entity whose optional fields are `None` or missing, used by the
formatter scenarios. -/
def cUserA : TLUser :=
  ⟨1, .val 10, .val ("Ann"), .pynone, .pynone, .pynone, .val false, .missing,
    .val false, .missing, .pynone⟩

/-- A concrete full-profile record with no `about` attribute and a `None`
photo list. -/
def cFullA : FullUserRec := ⟨.missing, .pynone, .missing⟩

/-- A concrete entity whose `bot` attribute is missing. -/
def cUserB : TLUser :=
  ⟨2, .val 0, .pynone, .pynone, .pynone, .pynone, .missing, .missing,
    .val false, .missing, .pynone⟩

/-- A concrete lookup environment whose session starts fine and whose
directory always fails. -/
def cEnv : Env := ⟨Except.ok (), ghostDir⟩

/-- Packing a valid codepoint and unpacking it is the identity. -/
theorem toNat_ofNat_valid (m : Nat) (h : m.isValidChar) :
    (Char.ofNat m).toNat = m := by
  simp [Char.ofNat, Char.ofNatAux, h, Char.toNat, UInt32.toNat,
    BitVec.toNat_ofNatLt]

/-- Lowercasing a character twice is the same as lowercasing it once. -/
theorem toLower_toLower (c : Char) : c.toLower.toLower = c.toLower := by
  have key : ∀ d : Char, (d.toNat < 65 ∨ d.toNat > 90) → d.toLower = d := by
    intro d hd
    simp only [Char.toLower]
    rw [if_neg (by omega)]
  by_cases h : c.toNat ≥ 65 ∧ c.toNat ≤ 90
  · have hv : (c.toNat + 32).isValidChar := Or.inl (by omega)
    have ht : (Char.ofNat (c.toNat + 32)).toNat = c.toNat + 32 :=
      toNat_ofNat_valid _ hv
    have hc : c.toLower = Char.ofNat (c.toNat + 32) := by
      simp only [Char.toLower]
      rw [if_pos h]
    rw [hc]
    exact key _ (by rw [ht]; omega)
  · have h0 := key c (by omega)
    rw [h0]
    exact h0

/-- The lowercase-and-strip-whitespace normalization is idempotent. -/
theorem pyNormalize_idem (s : String) :
    pyNormalize (pyNormalize s) = pyNormalize s := by
  unfold pyNormalize
  congr 1
  have hdata : (String.mk ((s.data.map Char.toLower).filter
      (fun c => !c.isWhitespace))).data
      = (s.data.map Char.toLower).filter (fun c => !c.isWhitespace) := rfl
  rw [hdata]
  have hmap : ((s.data.map Char.toLower).filter
      (fun c => !c.isWhitespace)).map Char.toLower
      = (s.data.map Char.toLower).filter (fun c => !c.isWhitespace) := by
    have := List.map_congr_left (l := (s.data.map Char.toLower).filter
        (fun c => !c.isWhitespace)) (f := Char.toLower) (g := id) ?_
    · simpa using this
    · intro a ha
      have hmem := (List.mem_filter.mp ha).left
      obtain ⟨b, _, hb⟩ := List.mem_map.mp hmem
      simp only [id]
      rw [← hb]
      exact toLower_toLower b
  rw [hmap]
  rw [List.filter_eq_self.mpr]
  intro a ha
  exact (List.mem_filter.mp ha).right

/-- C5 counterexample: a blank, whitespace-only identifier is not rejected by
`_normalize_identifier`; normalization succeeds and returns the empty
string. -/
theorem C5_blank_not_rejected : normalizeIdentifier ("   ") = Except.ok ("") :=
  rfl

/-- C5 (amended): `_normalize_identifier` fails exactly on the empty string;
every non-empty input, a whitespace-only one included, normalizes
successfully. -/
theorem C5_normalize_empty_only :
    normalizeIdentifier ("") = Except.error ("Identifier cannot be empty")
    ∧ ∀ s : String, s ≠ ("") → ∃ t, normalizeIdentifier s = Except.ok t := by
  constructor
  · rfl
  · intro s hs
    exact ⟨pyNormalize s, by rw [normalizeIdentifier, if_neg hs]⟩

/-- C5 witness: the amended theorem applied to a concrete non-empty input. -/
theorem C5_normalize_empty_only_witness :
    ("abc" : String) ≠ ("")
    ∧ ∃ t, normalizeIdentifier ("abc") = Except.ok t :=
  ⟨by decide, C5_normalize_empty_only.2 ("abc") (by decide)⟩

/-- C6 counterexample: the input of three spaces is non-empty and normalizes
successfully, but applying normalization to the result fails, so
`normalize(normalize(s)) = normalize(s)` does not hold for it. -/
theorem C6_idempotence_fails_on_blank :
    ("   " : String) ≠ ("")
    ∧ normalizeIdentifier ("   ") = Except.ok ("")
    ∧ normalizeIdentifier ("") = Except.error ("Identifier cannot be empty") :=
  ⟨by decide, rfl, rfl⟩

/-- C6 (amended): whenever normalization succeeds with a non-empty result,
applying it again succeeds and returns the same string. -/
theorem C6_normalize_idempotent (s t : String)
    (h : normalizeIdentifier s = Except.ok t) (ht : t ≠ ("")) :
    normalizeIdentifier t = Except.ok t := by
  by_cases hs : s = ("")
  · rw [hs] at h
    simp [normalizeIdentifier] at h
  · rw [normalizeIdentifier, if_neg hs] at h
    have hts : t = pyNormalize s := by
      cases h
      rfl
    rw [normalizeIdentifier, if_neg ht, hts, pyNormalize_idem]

/-- C6 witness: the amended idempotence theorem applied to a concrete
input. -/
theorem C6_normalize_idempotent_witness :
    normalizeIdentifier ("AB c") = Except.ok ("abc")
    ∧ ("abc" : String) ≠ ("")
    ∧ normalizeIdentifier ("abc") = Except.ok ("abc") :=
  ⟨rfl, by decide, C6_normalize_idempotent ("AB c") ("abc") rfl (by decide)⟩

/-- C9: `_ensure_started` is idempotent: on a live session it changes nothing
and performs no connect; running it twice is the same as running it once; and
from the idle state two consecutive runs perform exactly one underlying
connect. -/
theorem C9_ensureStarted_idempotent :
    (∀ s : Session, s.clientExists = true → s.connected = true →
      ensureStarted s = s)
    ∧ (∀ s : Session, ensureStarted (ensureStarted s) = ensureStarted s)
    ∧ (∀ n : Nat,
        (ensureStarted (ensureStarted ⟨false, false, false, n⟩)).connectCalls
          = n + 1) := by
  have hnoop : ∀ s : Session, s.clientExists = true → s.connected = true →
      ensureStarted s = s := by
    intro s h1 h2
    simp [ensureStarted, h1, h2]
  have hlive : ∀ s : Session, (ensureStarted s).clientExists = true
      ∧ (ensureStarted s).connected = true := by
    intro s
    by_cases h1 : s.clientExists
    · by_cases h2 : s.connected
      · simp [ensureStarted, h1, h2]
      · by_cases h3 : s.authorized
        · simp [ensureStarted, clientConnect, h1, h2, h3]
        · simp [ensureStarted, clientStart, clientConnect, h1, h2, h3]
    · simp [ensureStarted, clientStart, clientConnect, newClient,
        eq_false_of_ne_true h1]
  refine ⟨hnoop, ?_, ?_⟩
  · intro s
    exact hnoop _ (hlive s).left (hlive s).right
  · intro n
    have h1 := hnoop (ensureStarted ⟨false, false, false, n⟩)
      (hlive _).left (hlive _).right
    rw [h1]
    rfl

/-- The id attempt appends at most the one integer call to the calls made so
far. -/
theorem idAttempt_calls (d : Directory) (s : String) (errs : List String)
    (calls : List Call) :
    (idAttempt d s errs calls).calls
      = calls ++ (if isAllDigitsStr s then [Call.byInt (pyInt s)] else []) := by
  unfold idAttempt
  split
  · split <;> simp_all
  · simp_all

/-- The id attempt only appends to the errors recorded so far. -/
theorem idAttempt_errors_append (d : Directory) (s : String)
    (errs : List String) (calls : List Call) :
    ∃ t, (idAttempt d s errs calls).errors = errs ++ t := by
  unfold idAttempt
  split
  · split
    · exact ⟨[], by simp_all⟩
    · exact ⟨_, rfl⟩
  · exact ⟨[], by simp_all⟩

/-- Every error recorded by the id attempt beyond the incoming ones is an id
failure message. -/
theorem idAttempt_errors_shape (d : Directory) (s : String)
    (errs : List String) (calls : List Call) (m : String)
    (hm : m ∈ (idAttempt d s errs calls).errors) :
    m ∈ errs ∨ ∃ e, m = idErrMsg e := by
  by_cases hall : isAllDigitsStr s = true
  · cases hg : d.getEntity (Call.byInt (pyInt s)) with
    | ok u => exact Or.inl (by simpa [idAttempt, hall, hg] using hm)
    | error e =>
      have hm2 : m ∈ errs ∨ m = idErrMsg e := by
        simpa [idAttempt, hall, hg] using hm
      rcases hm2 with h | h
      · exact Or.inl h
      · exact Or.inr ⟨e, h⟩
  · exact Or.inl (by simpa [idAttempt, hall] using hm)

/-- When the id attempt ends in failure, the raised message is the aggregate
of the final recorded errors. -/
theorem idAttempt_result_error (d : Directory) (s : String)
    (errs : List String) (calls : List Call) (msg : String)
    (hmsg : (idAttempt d s errs calls).result = Except.error msg) :
    msg = cannotResolveMsg s (idAttempt d s errs calls).errors := by
  revert hmsg
  unfold idAttempt
  split
  · split
    · intro hmsg
      cases hmsg
    · intro hmsg
      cases hmsg
      rfl
  · intro hmsg
    cases hmsg
    rfl

/-- Every message recorded by the username attempt is a username failure or a
username error message. -/
theorem usernameErrs_mem (e : TgErr) (m : String) (hm : m ∈ usernameErrs e) :
    ∃ r, m = ("Username failed: ") ++ r ∨ m = ("Username error: ") ++ r := by
  cases e <;> revert hm <;> simp only [usernameErrs] <;> intro hm
  case usernameNotOccupied m2 => exact ⟨m2, Or.inl (by simpa using hm)⟩
  case usernameNotModified m2 => exact ⟨m2, Or.inl (by simpa using hm)⟩
  all_goals
    revert hm
    split <;> intro hm
    · cases hm
    · exact ⟨_, Or.inr (by simpa using hm)⟩

/-- The message recorded by the id attempt is always an ID failure or ID
error message. -/
theorem idErrMsg_shape (e : TgErr) :
    ∃ r, idErrMsg e = ("ID failed: ") ++ r ∨ idErrMsg e = ("ID error: ") ++ r := by
  cases e <;> first
    | exact ⟨_, Or.inl rfl⟩
    | exact ⟨_, Or.inr rfl⟩

/-- C1: the resolver calls the directory in the fixed order username, phone,
id, and short-circuits on the first success: a username success makes exactly
one call, and a phone success after a username failure makes exactly the two
string calls, never reaching the id call. -/
theorem C1_resolution_order (d : Directory) (s : String) :
    List.Sublist (resolveEntity d s).calls
      [Call.byStr s, Call.byStr (("+") ++ digitsOf s), Call.byInt (pyInt s)]
    ∧ (∀ u, d.getEntity (Call.byStr s) = Except.ok u →
        resolveEntity d s = ⟨Except.ok u, [Call.byStr s], []⟩)
    ∧ (∀ e1 u, d.getEntity (Call.byStr s) = Except.error e1 →
        (digitsOf s).length ≥ 10 →
        d.getEntity (Call.byStr (("+") ++ digitsOf s)) = Except.ok u →
        resolveEntity d s = ⟨Except.ok u,
          [Call.byStr s, Call.byStr (("+") ++ digitsOf s)], usernameErrs e1⟩) := by
  refine ⟨?_, ?_, ?_⟩
  · cases hg1 : d.getEntity (Call.byStr s) with
    | ok u =>
      simp only [resolveEntity, hg1]
      exact (List.nil_sublist _).cons₂ _
    | error e1 =>
      by_cases hd : (digitsOf s).length ≥ 10
      · cases hg2 : d.getEntity (Call.byStr (("+") ++ digitsOf s)) with
        | ok u =>
          simp only [resolveEntity, hg1, hd, if_true, hg2]
          exact List.sublist_append_left _ _
        | error e2 =>
          simp only [resolveEntity, hg1, hd, if_true, hg2]
          rw [idAttempt_calls]
          split
          · exact List.Sublist.refl _
          · rw [List.append_nil]
            exact List.sublist_append_left _ _
      · simp only [resolveEntity, hg1, hd, if_false]
        rw [idAttempt_calls]
        split
        · exact ((List.Sublist.refl _).cons _).cons₂ _
        · rw [List.append_nil]
          exact (List.nil_sublist _).cons₂ _
  · intro u hu
    simp only [resolveEntity, hu]
  · intro e1 u h1 h10 h2
    simp only [resolveEntity, h1, h10, if_true, h2]

/-- C1 witness: the short-circuit theorem applied to a directory that
resolves the username directly, and to one where the username attempt fails
and the phone attempt succeeds. -/
theorem C1_resolution_order_witness :
    resolveEntity usernameOkDir ("durov")
      = ⟨Except.ok sampleUser, [Call.byStr ("durov")], []⟩
    ∧ resolveEntity phoneOkDir ("1234567890")
      = ⟨Except.ok sampleUser,
          [Call.byStr ("1234567890"), Call.byStr ("+1234567890")],
          usernameErrs (TgErr.usernameNotOccupied ("u1"))⟩ :=
  ⟨(C1_resolution_order usernameOkDir ("durov")).2.1 sampleUser rfl,
   (C1_resolution_order phoneOkDir ("1234567890")).2.2
     (TgErr.usernameNotOccupied ("u1")) sampleUser rfl (by decide) rfl⟩

/-- C2: when at least ten digits are extracted and the username attempt has
failed, the phone attempt calls the directory with exactly one plus sign
prepended to the extracted digits; with fewer than ten digits no phone call
is made and no phone failure is recorded. -/
theorem C2_phone_attempt (d : Directory) (s : String) :
    ((digitsOf s).length ≥ 10 → ∀ e1,
      d.getEntity (Call.byStr s) = Except.error e1 →
      Call.byStr (("+") ++ digitsOf s) ∈ (resolveEntity d s).calls
      ∧ ((("+") ++ digitsOf s).data.count '+') = 1)
    ∧ ((digitsOf s).length < 10 →
      (∀ t, Call.byStr t ∈ (resolveEntity d s).calls → t = s)
      ∧ (∀ m, m ∈ (resolveEntity d s).errors →
          ∃ r, m = ("Username failed: ") ++ r ∨ m = ("Username error: ") ++ r
            ∨ m = ("ID failed: ") ++ r ∨ m = ("ID error: ") ++ r)) := by
  constructor
  · intro h10 e1 h1
    constructor
    · cases hg2 : d.getEntity (Call.byStr (("+") ++ digitsOf s)) with
      | ok u =>
        simp only [resolveEntity, h1, h10, if_true, hg2]
        simp
      | error e2 =>
        simp only [resolveEntity, h1, h10, if_true, hg2]
        rw [idAttempt_calls]
        simp
    · have hdata : (("+") ++ digitsOf s).data = '+' :: (digitsOf s).data := rfl
      rw [hdata, List.count_cons_self]
      have hzero : ((digitsOf s).data.count '+') = 0 := by
        rw [List.count_eq_zero]
        intro hmem
        have hdig : Char.isDigit '+' = true :=
          List.mem_filter.mp hmem |>.right
        cases hdig
      omega
  · intro h10
    have hnot : ¬ ((digitsOf s).length ≥ 10) := by omega
    cases hg1 : d.getEntity (Call.byStr s) with
    | ok u =>
      constructor
      · intro t ht
        simp only [resolveEntity, hg1] at ht
        have h2 : t = s := by simpa using ht
        exact h2
      · intro m hm
        simp only [resolveEntity, hg1] at hm
        simp at hm
    | error e1 =>
      constructor
      · intro t ht
        simp only [resolveEntity, hg1, hnot, if_false] at ht
        rw [idAttempt_calls] at ht
        rcases List.mem_append.mp ht with h | h
        · have h2 : t = s := by simpa using h
          exact h2
        · revert h
          split <;> intro h <;> simp at h
      · intro m hm
        simp only [resolveEntity, hg1, hnot, if_false] at hm
        rcases idAttempt_errors_shape d s _ _ m hm with h | ⟨e, he⟩
        · rcases usernameErrs_mem e1 m h with ⟨r, hr | hr⟩
          · exact ⟨r, Or.inl hr⟩
          · exact ⟨r, Or.inr (Or.inl hr)⟩
        · rcases idErrMsg_shape e with ⟨r, hr | hr⟩
          · exact ⟨r, Or.inr (Or.inr (Or.inl (he.trans hr)))⟩
          · exact ⟨r, Or.inr (Or.inr (Or.inr (he.trans hr)))⟩

/-- C2 witness: the theorem applied to a ten-digit identifier whose phone
attempt is made with one plus sign, and to a nine-digit identifier for which
no phone call happens. -/
theorem C2_phone_attempt_witness :
    ((digitsOf ("1234567890")).length ≥ 10
      ∧ Call.byStr ("+1234567890") ∈ (resolveEntity allFailDir ("1234567890")).calls
      ∧ (("+1234567890" : String).data.count '+') = 1)
    ∧ ((digitsOf ("123456789")).length < 10
      ∧ ∀ t, Call.byStr t ∈ (resolveEntity allFailDir ("123456789")).calls →
          t = ("123456789")) := by
  refine ⟨⟨by decide, ?_, ?_⟩, ⟨by decide, ?_⟩⟩
  · exact ((C2_phone_attempt allFailDir ("1234567890")).1 (by decide)
      (TgErr.usernameNotOccupied ("no such name")) rfl).1
  · exact ((C2_phone_attempt allFailDir ("1234567890")).1 (by decide)
      (TgErr.usernameNotOccupied ("no such name")) rfl).2
  · intro t ht
    exact ((C2_phone_attempt allFailDir ("123456789")).2 (by decide)).1 t ht

/-- C3 counterexample: when the username attempt fails with a generic
exception whose text contains `USERNAME_NOT_OCCUPIED`, the attempt was made
and failed, yet its reason is dropped: the aggregated message carries no
attempt message at all. -/
theorem C3_dropped_reason :
    ghostDir.getEntity (Call.byStr ("ghost"))
      = Except.error (TgErr.other ("USERNAME_NOT_OCCUPIED raw RPC failure"))
    ∧ (resolveEntity ghostDir ("ghost")).calls = [Call.byStr ("ghost")]
    ∧ (resolveEntity ghostDir ("ghost")).result
        = Except.error ("Cannot resolve \"ghost\". Tried: ")
    ∧ (resolveEntity ghostDir ("ghost")).errors = []
    ∧ strContains ("Cannot resolve \"ghost\". Tried: ")
        ("USERNAME_NOT_OCCUPIED raw RPC failure") = false := by
  refine ⟨rfl, rfl, rfl, rfl, by decide⟩

/-- C3 (amended): when every attempt fails, the raised message is exactly
`Cannot resolve "<input>". Tried: ` followed by the recorded attempt failure
messages joined in attempt order; a typed username-not-occupied or
not-modified failure is recorded, first in that list.  (A generic username
failure whose text contains `USERNAME_NOT_OCCUPIED` is dropped instead, per
the counterexample.) -/
theorem C3_error_message (d : Directory) (s : String) :
    (∀ msg, (resolveEntity d s).result = Except.error msg →
      msg = cannotResolveMsg s (resolveEntity d s).errors)
    ∧ (∀ m, (d.getEntity (Call.byStr s)
          = Except.error (TgErr.usernameNotOccupied m)
        ∨ d.getEntity (Call.byStr s)
          = Except.error (TgErr.usernameNotModified m)) →
        (resolveEntity d s).errors.head? = some (("Username failed: ") ++ m)) := by
  constructor
  · intro msg hmsg
    cases hg1 : d.getEntity (Call.byStr s) with
    | ok u =>
      rw [resolveEntity] at hmsg ⊢
      simp only [hg1] at hmsg
      cases hmsg
    | error e1 =>
      by_cases hd : (digitsOf s).length ≥ 10
      · cases hg2 : d.getEntity (Call.byStr (("+") ++ digitsOf s)) with
        | ok u =>
          rw [resolveEntity] at hmsg ⊢
          simp only [hg1, hd, if_true, hg2] at hmsg
          cases hmsg
        | error e2 =>
          rw [resolveEntity] at hmsg ⊢
          simp only [hg1, hd, if_true, hg2] at hmsg ⊢
          exact idAttempt_result_error d s _ _ msg hmsg
      · rw [resolveEntity] at hmsg ⊢
        simp only [hg1, hd, if_false] at hmsg ⊢
        exact idAttempt_result_error d s _ _ msg hmsg
  · intro m hm
    have hu : ∃ e1, d.getEntity (Call.byStr s) = Except.error e1
        ∧ usernameErrs e1 = [("Username failed: ") ++ m] := by
      rcases hm with h | h
      · exact ⟨_, h, rfl⟩
      · exact ⟨_, h, rfl⟩
    rcases hu with ⟨e1, h1, hue⟩
    by_cases hd : (digitsOf s).length ≥ 10
    · cases hg2 : d.getEntity (Call.byStr (("+") ++ digitsOf s)) with
      | ok u =>
        rw [resolveEntity]
        simp only [h1, hd, if_true, hg2, hue]
        rfl
      | error e2 =>
        rw [resolveEntity]
        simp only [h1, hd, if_true, hg2]
        rcases idAttempt_errors_append d s (usernameErrs e1 ++ [phoneErrMsg e2])
          [Call.byStr s, Call.byStr (("+") ++ digitsOf s)] with ⟨t, ht⟩
        rw [ht, hue]
        rfl
    · rw [resolveEntity]
      simp only [h1, hd, if_false]
      rcases idAttempt_errors_append d s (usernameErrs e1)
        [Call.byStr s] with ⟨t, ht⟩
      rw [ht, hue]
      rfl

/-- C3 witness: the amended theorem applied to a directory where all three
attempts fail with typed errors. -/
theorem C3_error_message_witness :
    ("Cannot resolve \"1234567890\". Tried: Username failed: no such name; Phone failed: bad phone; ID failed: bad id")
      = cannotResolveMsg ("1234567890")
          (resolveEntity allFailDir ("1234567890")).errors
    ∧ (resolveEntity allFailDir ("1234567890")).errors.head?
      = some (("Username failed: ") ++ ("no such name")) :=
  ⟨(C3_error_message allFailDir ("1234567890")).1 _ rfl,
   (C3_error_message allFailDir ("1234567890")).2 ("no such name")
     (Or.inl rfl)⟩

/-- C9 witness: the no-op part of the theorem applied to a concrete live
session state. -/
theorem C9_ensureStarted_idempotent_witness :
    ensureStarted ⟨true, true, true, 5⟩ = ⟨true, true, true, 5⟩ :=
  C9_ensureStarted_idempotent.1 ⟨true, true, true, 5⟩ rfl rfl

/-- Binding a success just applies the continuation. -/
theorem ebind_ok (a : α) (f : α → Except ε β) :
    ((Except.ok a : Except ε α) >>= f) = f a := rfl

/-- Binding a failure short-circuits. -/
theorem ebind_error (e : ε) (f : α → Except ε β) :
    ((Except.error e : Except ε α) >>= f) = Except.error e := rfl

/-- Mapping over a success applies the function. -/
theorem emap_ok (f : α → β) (a : α) :
    (f <$> (Except.ok a : Except ε α)) = Except.ok (f a) := rfl

/-- Mapping over a failure short-circuits. -/
theorem emap_error (f : α → β) (e : ε) :
    (f <$> (Except.error e : Except ε α)) = Except.error e := rfl

/-- Pure is success. -/
theorem epure_eq (a : α) : (pure a : Except ε α) = Except.ok a := rfl

/-- Elimination principle for a successful formatter run: every plain
attribute access succeeded and the result is the info dictionary built from
the accessed values. -/
theorem format_ok_elim {user : TLUser} {full_user : FullUserRec}
    {d : List (String × JVal)}
    (h : formatUserInfo user full_user = Except.ok d) :
    ∃ ah fn ln un bt vf st pp,
      user.access_hash.pyGet ("access_hash") = Except.ok ah
      ∧ user.first_name.pyGet ("first_name") = Except.ok fn
      ∧ user.last_name.pyGet ("last_name") = Except.ok ln
      ∧ user.username.pyGet ("username") = Except.ok un
      ∧ user.bot.pyGet ("bot") = Except.ok bt
      ∧ user.verified.pyGet ("verified") = Except.ok vf
      ∧ user.status.pyGet ("status") = Except.ok st
      ∧ full_user.profile_photos.pyGet ("profile_photos") = Except.ok pp
      ∧ d = infoList user full_user ah fn ln un bt vf st pp := by
  unfold formatUserInfo at h
  cases h1 : user.access_hash.pyGet ("access_hash") with
  | error e =>
    rw [h1] at h
    simp only [ebind_ok, ebind_error, emap_ok, emap_error, epure_eq] at h
    exact Except.noConfusion h
  | ok ah =>
  rw [h1] at h
  simp only [ebind_ok] at h
  cases h2 : user.first_name.pyGet ("first_name") with
  | error e =>
    rw [h2] at h
    simp only [ebind_ok, ebind_error, emap_ok, emap_error, epure_eq] at h
    exact Except.noConfusion h
  | ok fn =>
  rw [h2] at h
  simp only [ebind_ok] at h
  cases h3 : user.last_name.pyGet ("last_name") with
  | error e =>
    rw [h3] at h
    simp only [ebind_ok, ebind_error, emap_ok, emap_error, epure_eq] at h
    exact Except.noConfusion h
  | ok ln =>
  rw [h3] at h
  simp only [ebind_ok] at h
  cases h4 : user.username.pyGet ("username") with
  | error e =>
    rw [h4] at h
    simp only [ebind_ok, ebind_error, emap_ok, emap_error, epure_eq] at h
    exact Except.noConfusion h
  | ok un =>
  rw [h4] at h
  simp only [ebind_ok] at h
  cases h5 : user.bot.pyGet ("bot") with
  | error e =>
    rw [h5] at h
    simp only [ebind_ok, ebind_error, emap_ok, emap_error, epure_eq] at h
    exact Except.noConfusion h
  | ok bt =>
  rw [h5] at h
  simp only [ebind_ok] at h
  cases h6 : user.verified.pyGet ("verified") with
  | error e =>
    rw [h6] at h
    simp only [ebind_ok, ebind_error, emap_ok, emap_error, epure_eq] at h
    exact Except.noConfusion h
  | ok vf =>
  rw [h6] at h
  simp only [ebind_ok] at h
  cases h7 : user.status.pyGet ("status") with
  | error e =>
    rw [h7] at h
    simp only [ebind_ok, ebind_error, emap_ok, emap_error, epure_eq] at h
    exact Except.noConfusion h
  | ok st =>
  rw [h7] at h
  simp only [ebind_ok] at h
  cases h8 : full_user.profile_photos.pyGet ("profile_photos") with
  | error e =>
    rw [h8] at h
    simp only [ebind_ok, ebind_error, emap_ok, emap_error, epure_eq] at h
    exact Except.noConfusion h
  | ok pp =>
  rw [h8] at h
  simp only [ebind_ok, emap_ok, epure_eq] at h
  injection h with h9
  exact ⟨ah, fn, ln, un, bt, vf, st, pp, rfl, rfl, rfl, rfl, rfl, rfl, rfl,
    rfl, h9.symm⟩

/-- Value of the about entry of the info dictionary. -/
theorem dictFind_about (user : TLUser) (full_user : FullUserRec)
    (ah : Option Int) (fn ln un : Option String) (bt vf : Option Bool)
    (st : Option String) (pp : Option (List PhotoRec)) :
    dictFind ("about") (infoList user full_user ah fn ln un bt vf st pp)
      = some (jOfStr (full_user.about.pyGetattr none)) := rfl

/-- Value of the phone entry of the info dictionary. -/
theorem dictFind_phone (user : TLUser) (full_user : FullUserRec)
    (ah : Option Int) (fn ln un : Option String) (bt vf : Option Bool)
    (st : Option String) (pp : Option (List PhotoRec)) :
    dictFind ("phone") (infoList user full_user ah fn ln un bt vf st pp)
      = some (jOfStr (user.phone.pyGetattr none)) := rfl

/-- Value of the first name entry of the info dictionary. -/
theorem dictFind_first_name (user : TLUser) (full_user : FullUserRec)
    (ah : Option Int) (fn ln un : Option String) (bt vf : Option Bool)
    (st : Option String) (pp : Option (List PhotoRec)) :
    dictFind ("first_name") (infoList user full_user ah fn ln un bt vf st pp)
      = some (jOfStr (pyOrNone fn)) := rfl

/-- Value of the last name entry of the info dictionary. -/
theorem dictFind_last_name (user : TLUser) (full_user : FullUserRec)
    (ah : Option Int) (fn ln un : Option String) (bt vf : Option Bool)
    (st : Option String) (pp : Option (List PhotoRec)) :
    dictFind ("last_name") (infoList user full_user ah fn ln un bt vf st pp)
      = some (jOfStr (pyOrNone ln)) := rfl

/-- Value of the username entry of the info dictionary. -/
theorem dictFind_username (user : TLUser) (full_user : FullUserRec)
    (ah : Option Int) (fn ln un : Option String) (bt vf : Option Bool)
    (st : Option String) (pp : Option (List PhotoRec)) :
    dictFind ("username") (infoList user full_user ah fn ln un bt vf st pp)
      = some (jOfStr un) := rfl

/-- Value of the bot flag entry of the info dictionary. -/
theorem dictFind_is_bot (user : TLUser) (full_user : FullUserRec)
    (ah : Option Int) (fn ln un : Option String) (bt vf : Option Bool)
    (st : Option String) (pp : Option (List PhotoRec)) :
    dictFind ("is_bot") (infoList user full_user ah fn ln un bt vf st pp)
      = some (jOfBool bt) := rfl

/-- Value of the premium flag entry of the info dictionary. -/
theorem dictFind_is_premium (user : TLUser) (full_user : FullUserRec)
    (ah : Option Int) (fn ln un : Option String) (bt vf : Option Bool)
    (st : Option String) (pp : Option (List PhotoRec)) :
    dictFind ("is_premium") (infoList user full_user ah fn ln un bt vf st pp)
      = some (jOfBool (user.premium.pyGetattr (some false))) := rfl

/-- Value of the scam flag entry of the info dictionary. -/
theorem dictFind_is_scam (user : TLUser) (full_user : FullUserRec)
    (ah : Option Int) (fn ln un : Option String) (bt vf : Option Bool)
    (st : Option String) (pp : Option (List PhotoRec)) :
    dictFind ("is_scam") (infoList user full_user ah fn ln un bt vf st pp)
      = some (jOfBool (user.scam.pyGetattr (some false))) := rfl

/-- Value of the photo count entry of the info dictionary. -/
theorem dictFind_count (user : TLUser) (full_user : FullUserRec)
    (ah : Option Int) (fn ln un : Option String) (bt vf : Option Bool)
    (st : Option String) (pp : Option (List PhotoRec)) :
    dictFind ("profile_photos_count")
        (infoList user full_user ah fn ln un bt vf st pp)
      = some (JVal.jint (pyLenIfTruthy pp)) := rfl

/-- The photo entry of the info dictionary is exactly the conditional photo
part. -/
theorem dictFind_photo (user : TLUser) (full_user : FullUserRec)
    (ah : Option Int) (fn ln un : Option String) (bt vf : Option Bool)
    (st : Option String) (pp : Option (List PhotoRec)) :
    dictFind ("profile_photo")
        (infoList user full_user ah fn ln un bt vf st pp)
      = dictFind ("profile_photo") (photoPart pp) := rfl

/-- C10: the status entry of a formatted record is never null: it is always a
string, and a `None` status is rendered as the literal string `None`. -/
theorem C10_status_never_null (user : TLUser) (full_user : FullUserRec)
    (d : List (String × JVal))
    (h : formatUserInfo user full_user = Except.ok d) :
    (∃ s, dictFind ("status") d = some (JVal.jstr s))
    ∧ dictFind ("status") d ≠ some JVal.jnull
    ∧ (user.status = Attr.pynone →
        dictFind ("status") d = some (JVal.jstr ("None"))) := by
  rcases format_ok_elim h with
    ⟨ah, fn, ln, un, bt, vf, st, pp, h1, h2, h3, h4, h5, h6, h7, h8, hd⟩
  subst hd
  refine ⟨⟨pyStr st, rfl⟩, ?_, ?_⟩
  · intro hcon
    have hval : dictFind ("status")
        (infoList user full_user ah fn ln un bt vf st pp)
        = some (JVal.jstr (pyStr st)) := rfl
    rw [hval] at hcon
    injection hcon with hcon2
    exact JVal.noConfusion hcon2
  · intro hst
    rw [hst] at h7
    injection h7 with h7b
    rw [← h7b]
    rfl

/-- C10 witness: the theorem applied to a concrete entity whose status is
`None`. -/
theorem C10_status_never_null_witness :
    formatUserInfo cUserA cFullA = Except.ok (infoList cUserA cFullA
      (some 10) (some ("Ann")) none none (some false) (some false) none none)
    ∧ dictFind ("status") (infoList cUserA cFullA
        (some 10) (some ("Ann")) none none (some false) (some false) none none)
      = some (JVal.jstr ("None")) :=
  ⟨rfl, (C10_status_never_null cUserA cFullA _ rfl).2.2 rfl⟩

/-- C7 counterexample: on an external record with no photos the formatter
succeeds but the output has no `profile_photo` key at all, instead of a
present-but-null entry. -/
theorem C7_photo_key_omitted :
    formatUserInfo cUserA cFullA = Except.ok (infoList cUserA cFullA
      (some 10) (some ("Ann")) none none (some false) (some false) none none)
    ∧ dictFind ("profile_photo") (infoList cUserA cFullA
        (some 10) (some ("Ann")) none none (some false) (some false) none none)
      = none :=
  ⟨rfl, rfl⟩

/-- C7 (amended): absent optional scalar fields (about, names, username,
phone) are present in the output with a null value, but the nested
`profile_photo` structure is omitted from the record entirely (key absent)
when the photo list is `None` or empty, and present only when at least one
photo exists. -/
theorem C7_optional_fields (user : TLUser) (full_user : FullUserRec)
    (d : List (String × JVal))
    (h : formatUserInfo user full_user = Except.ok d) :
    ((full_user.about = Attr.missing ∨ full_user.about = Attr.pynone) →
      dictFind ("about") d = some JVal.jnull)
    ∧ ((user.phone = Attr.missing ∨ user.phone = Attr.pynone) →
      dictFind ("phone") d = some JVal.jnull)
    ∧ (user.first_name = Attr.pynone →
      dictFind ("first_name") d = some JVal.jnull)
    ∧ (user.last_name = Attr.pynone →
      dictFind ("last_name") d = some JVal.jnull)
    ∧ (user.username = Attr.pynone →
      dictFind ("username") d = some JVal.jnull)
    ∧ (full_user.profile_photos = Attr.pynone →
      dictFind ("profile_photo") d = none)
    ∧ (full_user.profile_photos = Attr.val [] →
      dictFind ("profile_photo") d = none)
    ∧ (∀ p rest, full_user.profile_photos = Attr.val (p :: rest) →
      dictFind ("profile_photo") d ≠ none) := by
  rcases format_ok_elim h with
    ⟨ah, fn, ln, un, bt, vf, st, pp, h1, h2, h3, h4, h5, h6, h7, h8, hd⟩
  subst hd
  refine ⟨?_, ?_, ?_, ?_, ?_, ?_, ?_, ?_⟩
  · rintro (hab | hab) <;> rw [dictFind_about, hab] <;> rfl
  · rintro (hph | hph) <;> rw [dictFind_phone, hph] <;> rfl
  · intro hfn
    rw [hfn] at h2
    injection h2 with h2b
    rw [dictFind_first_name, ← h2b]
    rfl
  · intro hln
    rw [hln] at h3
    injection h3 with h3b
    rw [dictFind_last_name, ← h3b]
    rfl
  · intro hun
    rw [hun] at h4
    injection h4 with h4b
    rw [dictFind_username, ← h4b]
    rfl
  · intro hpp
    rw [hpp] at h8
    injection h8 with h8b
    rw [dictFind_photo, ← h8b]
    rfl
  · intro hpp
    rw [hpp] at h8
    injection h8 with h8b
    rw [dictFind_photo, ← h8b]
    rfl
  · intro p rest hpp
    rw [hpp] at h8
    injection h8 with h8b
    rw [dictFind_photo, ← h8b]
    intro hcon
    exact Option.noConfusion hcon

/-- C7 witness: the amended theorem applied to a concrete record with a
missing `about` attribute and a `None` photo list. -/
theorem C7_optional_fields_witness :
    formatUserInfo cUserA cFullA = Except.ok (infoList cUserA cFullA
      (some 10) (some ("Ann")) none none (some false) (some false) none none)
    ∧ dictFind ("about") (infoList cUserA cFullA
        (some 10) (some ("Ann")) none none (some false) (some false) none none)
      = some JVal.jnull
    ∧ dictFind ("profile_photo") (infoList cUserA cFullA
        (some 10) (some ("Ann")) none none (some false) (some false) none none)
      = none :=
  ⟨rfl, (C7_optional_fields cUserA cFullA _ rfl).1 (Or.inl rfl),
    (C7_optional_fields cUserA cFullA _ rfl).2.2.2.2.2.1 rfl⟩

/-- C8 counterexample: on an entity whose `bot` attribute is absent the
formatter does not default `is_bot` to false: it fails with an attribute
error and produces no record at all. -/
theorem C8_bot_not_defaulted :
    cUserB.bot = Attr.missing
    ∧ formatUserInfo cUserB cFullA
      = Except.error (("AttributeError: ") ++ ("bot")) :=
  ⟨rfl, rfl⟩

/-- C8 (amended): `is_premium` and `is_scam` default to false when the
corresponding attribute is absent, but `is_bot` and `is_verified` are read
without a default: the formatter can only succeed when `bot` and `verified`
are present, and a present `None` flag flows through as null, not false.
`profile_photos_count` is the length of the photo list and 0 when the list
is `None`. -/
theorem C8_flag_defaults (user : TLUser) (full_user : FullUserRec)
    (d : List (String × JVal))
    (h : formatUserInfo user full_user = Except.ok d) :
    (user.premium = Attr.missing →
      dictFind ("is_premium") d = some (JVal.jbool false))
    ∧ (user.scam = Attr.missing →
      dictFind ("is_scam") d = some (JVal.jbool false))
    ∧ (user.premium = Attr.pynone →
      dictFind ("is_premium") d = some JVal.jnull)
    ∧ user.bot ≠ Attr.missing
    ∧ user.verified ≠ Attr.missing
    ∧ (user.bot = Attr.pynone → dictFind ("is_bot") d = some JVal.jnull)
    ∧ (full_user.profile_photos = Attr.pynone →
      dictFind ("profile_photos_count") d = some (JVal.jint 0))
    ∧ (∀ l, full_user.profile_photos = Attr.val l →
      dictFind ("profile_photos_count") d
        = some (JVal.jint (l.length : Int))) := by
  rcases format_ok_elim h with
    ⟨ah, fn, ln, un, bt, vf, st, pp, h1, h2, h3, h4, h5, h6, h7, h8, hd⟩
  subst hd
  refine ⟨?_, ?_, ?_, ?_, ?_, ?_, ?_, ?_⟩
  · intro hpm
    rw [dictFind_is_premium, hpm]
    rfl
  · intro hsc
    rw [dictFind_is_scam, hsc]
    rfl
  · intro hpm
    rw [dictFind_is_premium, hpm]
    rfl
  · intro hb
    rw [hb] at h5
    exact Except.noConfusion h5
  · intro hv
    rw [hv] at h6
    exact Except.noConfusion h6
  · intro hb
    rw [hb] at h5
    injection h5 with h5b
    rw [dictFind_is_bot, ← h5b]
    rfl
  · intro hpp
    rw [hpp] at h8
    injection h8 with h8b
    rw [dictFind_count, ← h8b]
    rfl
  · intro l hpp
    rw [hpp] at h8
    injection h8 with h8b
    rw [dictFind_count, ← h8b]
    cases l with
    | nil => rfl
    | cons p rest => rfl

/-- C8 witness: the amended theorem applied to a concrete entity with absent
premium and scam attributes and a `None` photo list. -/
theorem C8_flag_defaults_witness :
    formatUserInfo cUserA cFullA = Except.ok (infoList cUserA cFullA
      (some 10) (some ("Ann")) none none (some false) (some false) none none)
    ∧ dictFind ("is_premium") (infoList cUserA cFullA
        (some 10) (some ("Ann")) none none (some false) (some false) none none)
      = some (JVal.jbool false)
    ∧ dictFind ("profile_photos_count") (infoList cUserA cFullA
        (some 10) (some ("Ann")) none none (some false) (some false) none none)
      = some (JVal.jint 0) :=
  ⟨rfl, (C8_flag_defaults cUserA cFullA _ rfl).1 rfl,
    (C8_flag_defaults cUserA cFullA _ rfl).2.2.2.2.2.2.1 rfl⟩

/-- C4: whatever stage of the lookup pipeline fails, `get_user_info` returns
the structured error dictionary: `error` is true, the `identifier` entry is
the original input, and the message embeds the original input. -/
theorem C4_lookup_error_shape (env : Env) (identifier : String) (e : String)
    (h : getUserInfoTry env identifier = Except.error e) :
    get_user_info env identifier
      = [ (("error"), JVal.jbool true),
          (("message"), JVal.jstr (("Failed to fetch user info for \"")
            ++ identifier ++ ("\": ") ++ e)),
          (("identifier"), JVal.jstr identifier) ]
    ∧ dictFind ("identifier") (get_user_info env identifier)
      = some (JVal.jstr identifier)
    ∧ dictFind ("error") (get_user_info env identifier)
      = some (JVal.jbool true)
    ∧ strContains (("Failed to fetch user info for \"") ++ identifier
        ++ ("\": ") ++ e) identifier = true := by
  have hmain : get_user_info env identifier
      = [ (("error"), JVal.jbool true),
          (("message"), JVal.jstr (("Failed to fetch user info for \"")
            ++ identifier ++ ("\": ") ++ e)),
          (("identifier"), JVal.jstr identifier) ] := by
    unfold get_user_info
    rw [h]
  refine ⟨hmain, ?_, ?_, ?_⟩
  · rw [hmain]
    rfl
  · rw [hmain]
    rfl
  · apply decide_eq_true
    refine ⟨("Failed to fetch user info for \"").data, (("\": ") ++ e).data, ?_⟩
    simp [List.append_assoc]

/-- C4 witness: the theorem applied to a concrete environment in which
normalization fails on the empty identifier. -/
theorem C4_lookup_error_shape_witness :
    getUserInfoTry cEnv ("") = Except.error ("Identifier cannot be empty")
    ∧ dictFind ("identifier") (get_user_info cEnv (""))
      = some (JVal.jstr (""))
    ∧ dictFind ("error") (get_user_info cEnv ("")) = some (JVal.jbool true) :=
  ⟨rfl, (C4_lookup_error_shape cEnv ("") ("Identifier cannot be empty")
    rfl).2.1,
   (C4_lookup_error_shape cEnv ("") ("Identifier cannot be empty")
    rfl).2.2.1⟩

end StatIt

